import Mathlib

/-!
Shallow embedding of `src/tools/log_receiver.py` (class `LogReceiver` and
the module-level `main`), together with theorems settling the behavioural
claims about its line splitting, entry formatting, display buffer,
shutdown path and startup checks.

Conventions of the embedding:
* Python strings become `String`; `str.strip()` becomes `pyStrip`,
  `str.split` becomes `pySplit`, and `" ".join` becomes the explicit
  `joinSpace` below — all defined by structural recursion over the
  underlying character lists so that they evaluate inside the kernel.
* The decoded text of a received byte chunk is modelled directly as a
  `String` (the `data.decode` step with replacement of invalid bytes is
  outside the scope of the claims, which all quantify over decoded text).
* Stateful methods become pure functions on explicit state records.
-/

namespace LogReceiver

/-- One element of `self.log_queue` / the interactive `logs` list: the tuple
`(timestamp, client_addr, message)` built in `process_log`. -/
structure LogEntry where
  timestamp : String
  addr : String × Nat
  message : String
deriving DecidableEq

/-- The four display toggles held on `self` (`show_timestamp`, `show_ip`,
`show_port`, `show_microseconds`), all initialised to `True`. -/
structure DisplaySettings where
  show_timestamp : Bool
  show_ip : Bool
  show_port : Bool
  show_microseconds : Bool
deriving DecidableEq

/-- Embedding of `" ".join(parts)` from `format_log_entry`. -/
def joinSpace : List String → String
  | [] => ""
  | [p] => p
  | p :: ps => p ++ " " ++ joinSpace ps

/-- Character-level helper for Python `str.split(sep)` with a one-character
separator: splits the character list at every occurrence of `sep`, keeping
empty pieces, so that for example splitting `"a\nb\n"` yields three pieces
`a`, `b` and the empty piece after the trailing separator — exactly Python
semantics. -/
def splitCharAux (sep : Char) : List Char → List (List Char)
  | [] => [[]]
  | a :: as =>
    let r := splitCharAux sep as
    if a = sep then [] :: r
    else (a :: r.headD []) :: r.tail

/-- Embedding of Python `s.split(sep)` for a one-character separator. -/
def pySplit (sep : Char) (s : String) : List String :=
  (splitCharAux sep s.data).map String.mk

/-- Embedding of Python `s.strip()`: drop whitespace from both ends. -/
def pyStrip (s : String) : String :=
  String.mk (((s.data.dropWhile Char.isWhitespace).reverse.dropWhile
    Char.isWhitespace).reverse)

/-- Embedding of the line-splitting loop in `handle_client`:
`for line in message.split(chr 10): line = line.strip(); if line: emit line`.
Returns the emitted lines of one chunk, in loop order. -/
def processChunk (message : String) : List String :=
  (pySplit '\n' message).foldl
    (fun acc line =>
      let l := pyStrip line
      if l = "" then acc else acc ++ [l])
    []

/-- Embedding of the per-connection read loop of `handle_client` at the
granularity of whole chunks: each received chunk is processed by the
line-splitting loop and its lines are emitted in order, chunk after chunk.
Returns every line the connection emits, in emission order. -/
def handle_client_lines (chunks : List String) : List String :=
  chunks.foldl (fun acc c => acc ++ processChunk c) []

/-- Embedding of `process_log`'s full format string
`f"[{timestamp}] [{client_addr[0]}:{client_addr[1]}] {message}"`. -/
def full_log (timestamp : String) (addr : String × Nat) (message : String) : String :=
  "[" ++ timestamp ++ "] [" ++ addr.1 ++ ":" ++ toString addr.2 ++ "] " ++ message

/-- The observable fan-out of one `process_log` call: the string appended to
the log file (if any), the string printed to stdout (if any), and the tuple
pushed onto `self.log_queue` (if any). -/
structure SinkActions where
  fileAppend : Option String
  consoleOut : Option String
  queued : Option LogEntry
deriving DecidableEq

/-- Embedding of `process_log(message, client_addr)` given the receiver
configuration flags `log_file`-is-set and `interactive`.  The timestamp
string parameter stands for `datetime.now().strftime(...)` truncated to
milliseconds, which the function computes and then only passes around. -/
def process_log (logFileConfigured interactive : Bool)
    (timestamp : String) (addr : String × Nat) (message : String) : SinkActions :=
  let full := full_log timestamp addr message
  { fileAppend := if logFileConfigured then some (full ++ "\n") else none
    consoleOut := if interactive then none else some full
    queued := if interactive then some ⟨timestamp, addr, message⟩ else none }

/-- Embedding of `format_log_entry(log_entry)`: builds `parts` exactly as the
source does (timestamp bracket, then peer-address bracket, then the message)
and joins them with single spaces. -/
def format_log_entry (cfg : DisplaySettings) (e : LogEntry) : String :=
  let parts : List String := []
  let parts :=
    if cfg.show_timestamp then
      let time_str :=
        if cfg.show_microseconds then e.timestamp
        else ((pySplit '.' e.timestamp).headD e.timestamp)
      parts ++ ["[" ++ time_str ++ "]"]
    else parts
  let parts :=
    if cfg.show_ip || cfg.show_port then
      if cfg.show_ip && cfg.show_port then
        parts ++ ["[" ++ e.addr.1 ++ ":" ++ toString e.addr.2 ++ "]"]
      else if cfg.show_ip then
        parts ++ ["[" ++ e.addr.1 ++ "]"]
      else
        parts ++ ["[:" ++ toString e.addr.2 ++ "]"]
    else parts
  joinSpace (parts ++ [e.message])

/-- Embedding of `self.log_queue.put((timestamp, client_addr, message))` in
`process_log`: the structure shared between the producing connection-handler
threads and the viewer is `self.log_queue = queue.Queue()`, constructed with
no `maxsize`, so a put is a plain FIFO enqueue with no capacity bound and no
eviction. -/
def queuePut (q : List LogEntry) (e : LogEntry) : List LogEntry :=
  q ++ [e]

/-- Embedding of one step of the interactive drain loop in
`interactive_main`, applied to the viewer-local `logs` accumulator after an
entry is taken off the shared queue: `logs.append(log_entry);
if len(logs) > 1000: logs.pop(0)`. -/
def pushLog (logs : List LogEntry) (e : LogEntry) : List LogEntry :=
  let logs := logs ++ [e]
  if logs.length > 1000 then logs.drop 1 else logs

/-- The keyboard-visible state of `interactive_main`: the toggles on `self`,
the local `logs` accumulator, and `self.running`. -/
structure ViewerState where
  settings : DisplaySettings
  logs : List LogEntry
  running : Bool
deriving DecidableEq

/-- Embedding of the key-dispatch block of `interactive_main` for one
polled key. -/
def handleKey (key : Char) (st : ViewerState) : ViewerState :=
  if key = 'q' then { st with running := false }
  else if key = 't' then
    { st with settings := { st.settings with show_timestamp := !st.settings.show_timestamp } }
  else if key = 'i' then
    { st with settings := { st.settings with show_ip := !st.settings.show_ip } }
  else if key = 'p' then
    { st with settings := { st.settings with show_port := !st.settings.show_port } }
  else if key = 'm' then
    { st with settings := { st.settings with show_microseconds := !st.settings.show_microseconds } }
  else if key = 'c' then { st with logs := [] }
  else st

/-- The lifecycle state touched by `stop`: `self.running`, whether
`self.socket` holds a socket object, and whether that socket has been
closed. -/
structure ServerState where
  running : Bool
  socketCreated : Bool
  socketClosed : Bool
deriving DecidableEq

/-- Embedding of `stop()`: clears `self.running`; then, if `self.socket` is
set, closes it inside `try/except: pass` (in Python, `socket.close()` on an
already-closed socket returns normally, and any exception would be swallowed
by the bare `except`).  The second component records whether any error
reached the operator: it never does. -/
def stop (s : ServerState) : ServerState × Bool :=
  let s := { s with running := false }
  if s.socketCreated then ({ s with socketClosed := true }, false) else (s, false)

/-- Embedding of `start_simple()` along its bind-failure path: the socket
object is created, `bind` raises `OSError`, the `except Exception` clause
prints the server error, and `finally` runs `stop()`.  `main` then returns
normally, so the interpreter exits with status 0.  Result: (final server
state, error reported to operator, process exit status). -/
def start_simple_onBindFailure : ServerState × Bool × Nat :=
  let s0 : ServerState := { running := true, socketCreated := true, socketClosed := false }
  let s1 := (stop s0).1
  (s1, true, 0)

/-- Outcome of the startup checks in `main` before the receiver runs. -/
structure StartupOutcome where
  exitCode : Option Nat
  errorReported : Bool
  socketCreated : Bool
deriving DecidableEq

/-- Embedding of `main`'s startup sequence: if `args.interactive` is set and
`curses` failed to import, print the error and `sys.exit(1)` — before
`LogReceiver` is even constructed, so no socket object exists.  Otherwise
control reaches `receiver.start()`, whose every branch (`start_simple` or
`run_server`) creates the server socket. -/
def main_startup (interactive cursesAvailable : Bool) : StartupOutcome :=
  if interactive && !cursesAvailable then
    { exitCode := some 1, errorReported := true, socketCreated := false }
  else
    { exitCode := none, errorReported := false, socketCreated := true }



/-- Concrete sample entry used by witnesses. -/
def sampleEntry : LogEntry := ⟨"01:02:03.004", ("127.0.0.1", 9000), "hello"⟩

/-- Concrete sample viewer state used by witnesses. -/
def sampleViewer : ViewerState := ⟨⟨true, true, true, true⟩, [sampleEntry], true⟩

/-- String concatenation is associative (via the underlying char lists). -/
theorem strAppend_assoc (a b c : String) : a ++ b ++ c = a ++ (b ++ c) := by
  apply String.ext
  simp [String.data_append, List.append_assoc]

/-- Equation for joining three or more parts. -/
theorem joinSpace_cons_cons (a b : String) (bs : List String) :
    joinSpace (a :: b :: bs) = a ++ " " ++ joinSpace (b :: bs) := rfl

/-- Joining a parts list that ends with m produces a string ending in m. -/
theorem joinSpace_append_last : ∀ (ps : List String) (m : String),
    ∃ pre, joinSpace (ps ++ [m]) = pre ++ m
  | [], m => ⟨"", by simp [joinSpace]⟩
  | [a], m => ⟨a ++ " ", by simp [joinSpace, joinSpace_cons_cons]⟩
  | a :: b :: bs, m => by
    obtain ⟨pre, hp⟩ := joinSpace_append_last (b :: bs) m
    refine ⟨a ++ " " ++ pre, ?_⟩
    have h1 : joinSpace (a :: b :: bs ++ [m])
        = a ++ " " ++ joinSpace (b :: (bs ++ [m])) := rfl
    rw [List.cons_append] at hp
    rw [h1, hp, strAppend_assoc (a ++ " ") pre m]

/-- The emit loop of handle_client equals map-strip-then-filter-nonempty. -/
theorem emit_foldl_eq (ls : List String) (acc : List String) :
    ls.foldl (fun acc line => let l := pyStrip line;
        if l = "" then acc else acc ++ [l]) acc
      = acc ++ (ls.map pyStrip).filter (fun t => t != "") := by
  induction ls generalizing acc with
  | nil => simp
  | cons a as ih =>
    simp only [List.foldl_cons, List.map_cons, List.filter_cons]
    by_cases h : pyStrip a = ""
    · rw [if_pos h, ih]
      simp [h]
    · rw [if_neg h, ih]
      simp [h]

/-- One push never grows the buffer beyond the 1000-entry cap. -/
theorem pushLog_length_le (l : List LogEntry) (e : LogEntry)
    (h : l.length ≤ 1000) : (pushLog l e).length ≤ 1000 := by
  have hlen : (l ++ [e]).length = l.length + 1 := by simp
  simp only [pushLog]
  split
  · simp only [List.length_drop, hlen]
    omega
  · rename_i hle
    rw [hlen] at hle ⊢
    omega

/-- Enqueuing a burst onto the shared queue appends it wholesale. -/
theorem foldl_queuePut (es q : List LogEntry) :
    es.foldl queuePut q = q ++ es := by
  induction es generalizing q with
  | nil => simp
  | cons a as ih => simp [queuePut, ih]

/-- Folding pushes over any burst preserves the cap. -/
theorem foldl_pushLog_length_le (es : List LogEntry) (init : List LogEntry)
    (h : init.length ≤ 1000) : (es.foldl pushLog init).length ≤ 1000 := by
  induction es generalizing init with
  | nil => simpa
  | cons a as ih => exact ih _ (pushLog_length_le _ _ h)

/-- The per-connection loop accumulates each chunk's lines in order. -/
theorem foldl_append_processChunk (chunks : List String) (acc : List String) :
    chunks.foldl (fun acc c => acc ++ processChunk c) acc
      = acc ++ (chunks.map processChunk).flatten := by
  induction chunks generalizing acc with
  | nil => simp
  | cons c cs ih => simp [ih]



/-- Claim C1 (counterexample): the claim states that processing the single
chunk "line1\nline2" (no trailing newline) emits only "line1" and drops
"line2"; in the code the split produces both segments and both are non-empty
after stripping, so "line2" is also emitted and the output differs from
["line1"]. -/
theorem chunk_partial_segment_refutes_drop :
    "line2" ∈ processChunk "line1\nline2" ∧
    processChunk "line1\nline2" ≠ ["line1"] := by decide

/-- Claim C1 (amended): processing the single chunk "line1\nline2" emits the
two entries "line1" and "line2", in order; the partial segment "line2" is
emitted immediately as its own entry rather than dropped or reassembled with
a later chunk. -/
theorem chunk_partial_segment_emitted :
    processChunk "line1\nline2" = ["line1", "line2"] := by decide

/-- Claim C2 (counterexample): the claim states that on a bind failure the
process exits with a non-zero status; in the code the `except Exception`
clause of `start_simple` swallows the bind error, `main` returns normally,
and the interpreter exits with status 0. -/
theorem bind_failure_exit_status_zero :
    start_simple_onBindFailure.2.2 = 0 := by decide

/-- Claim C2 (amended): on a bind failure the process reports the error,
clears the running flag, closes the socket object (leaving no partial server
listening), and exits promptly — but with status 0, not a non-zero status. -/
theorem bind_failure_reports_and_stops :
    start_simple_onBindFailure.2.1 = true ∧
    start_simple_onBindFailure.2.2 = 0 ∧
    start_simple_onBindFailure.1.running = false ∧
    start_simple_onBindFailure.1.socketClosed = true := by decide

/-- Claim C3: for every chunk whose decoded text splits on newlines into
segments of which exactly k are non-empty after stripping, the line-splitting
loop of `handle_client` emits exactly k strings, equal to those stripped
segments in order; empty and whitespace-only segments are dropped. -/
theorem line_splitter_yields_trimmed_segments (s : String) (k : Nat)
    (h : (((pySplit '\n' s).map pyStrip).filter (fun t => t != "")).length = k) :
    (processChunk s).length = k ∧
    processChunk s
      = ((pySplit '\n' s).map pyStrip).filter (fun t => t != "") := by
  have he : processChunk s
      = ((pySplit '\n' s).map pyStrip).filter (fun t => t != "") := by
    simpa [processChunk] using emit_foldl_eq (pySplit '\n' s) []
  exact ⟨by rw [he]; exact h, he⟩

/-- Witness for claim C3 at the concrete chunk "one\n  two  \n\n \nthree\n",
which has exactly three segments that survive stripping. -/
theorem line_splitter_yields_trimmed_segments_witness :
    (processChunk "one\n  two  \n\n \nthree\n").length = 3 ∧
    processChunk "one\n  two  \n\n \nthree\n"
      = ((pySplit '\n' "one\n  two  \n\n \nthree\n").map pyStrip).filter
          (fun t => t != "") :=
  line_splitter_yields_trimmed_segments _ 3 (by decide)

/-- Claim C4 (counterexample): the claim asserts the structure shared
between connection handlers and the viewer never holds more than 1000
entries and evicts the oldest on push 1001; that structure is the unbounded
`self.log_queue`, and a burst of 1001 puts onto the empty queue leaves 1001
entries queued — over the cap — while a put onto a queue already holding
1000 entries grows it to 1001 instead of evicting anything. -/
theorem shared_queue_exceeds_cap :
    ((List.replicate 1001 sampleEntry).foldl queuePut []).length = 1001 ∧
    ¬((List.replicate 1001 sampleEntry).foldl queuePut []).length ≤ 1000 ∧
    (queuePut (List.replicate 1000 sampleEntry) sampleEntry).length = 1001 := by
  have hq : (List.replicate 1001 sampleEntry).foldl queuePut ([] : List LogEntry)
      = [] ++ List.replicate 1001 sampleEntry := foldl_queuePut _ _
  have hlen : ((List.replicate 1001 sampleEntry).foldl queuePut
      ([] : List LogEntry)).length = 1001 := by
    rw [hq, List.nil_append, List.length_replicate]
  refine ⟨hlen, by rw [hlen]; omega, ?_⟩
  rw [queuePut, List.length_append, List.length_replicate, List.length_singleton]

/-- Claim C4 (amended): the shared handler-to-viewer structure
(`self.log_queue`) is an unbounded FIFO queue — a burst of B puts grows it
by exactly B, with no eviction; the 1000-entry cap with FIFO eviction holds
instead of the viewer-local render accumulator the queue is drained into:
starting within the cap it never exceeds 1000 entries, and a push onto an
accumulator holding exactly 1000 entries evicts exactly the oldest entry. -/
theorem display_buffer_cap_is_local (q init burst : List LogEntry)
    (e : LogEntry) (h : init.length ≤ 1000) :
    (burst.foldl queuePut q).length = q.length + burst.length ∧
    (burst.foldl pushLog init).length ≤ 1000 ∧
    (init.length = 1000 → pushLog init e = init.drop 1 ++ [e]) := by
  refine ⟨by rw [foldl_queuePut]; simp,
    foldl_pushLog_length_le burst init h, fun h1000 => ?_⟩
  cases init with
  | nil => simp at h1000
  | cons a tl =>
    have htl : tl.length = 999 := by simpa using h1000
    simp [pushLog, htl]

/-- Witness for claim C4: a one-entry burst grows a 1000-entry shared queue
to 1001 entries, while the full viewer-local accumulator stays at 1000
entries under a further push and loses exactly its head. -/
theorem display_buffer_cap_is_local_witness :
    (([sampleEntry] : List LogEntry).foldl queuePut
        (List.replicate 1000 sampleEntry)).length
      = (List.replicate 1000 sampleEntry).length
          + ([sampleEntry] : List LogEntry).length ∧
    (([sampleEntry] : List LogEntry).foldl pushLog
        (List.replicate 1000 sampleEntry)).length ≤ 1000 ∧
    ((List.replicate 1000 sampleEntry).length = 1000 →
      pushLog (List.replicate 1000 sampleEntry) sampleEntry
        = (List.replicate 1000 sampleEntry).drop 1 ++ [sampleEntry]) :=
  display_buffer_cap_is_local _ _ _ _ (by rw [List.length_replicate])

/-- Claim C5: over any sequence of chunks received on one connection, the
read loop of `handle_client` emits exactly the concatenation, in chunk
order, of each chunk's lines in their in-chunk order — FIFO per
connection. -/
theorem per_connection_fifo_order (chunks : List String) :
    handle_client_lines chunks = (chunks.map processChunk).flatten := by
  simpa [handle_client_lines] using foldl_append_processChunk chunks []

/-- Claim C6: when a log file is configured, the string `process_log`
appends to the file is character-for-character the console full-format
string `[timestamp] [ip:port] message` for the same entry, followed by a
newline. -/
theorem file_line_matches_console_format (interactive : Bool)
    (t : String) (a : String × Nat) (m : String) :
    (process_log true interactive t a m).fileAppend
      = some (full_log t a m ++ "\n") ∧
    (process_log true false t a m).consoleOut = some (full_log t a m) ∧
    full_log t a m
      = "[" ++ t ++ "] [" ++ a.1 ++ ":" ++ toString a.2 ++ "] " ++ m :=
  ⟨rfl, rfl, rfl⟩

/-- Claim C7: `stop` is idempotent — running it a second time on the state
it produced yields the same state and, like the first run, surfaces no
double-close error to the operator; after one run the running flag is
cleared and any created socket is closed. -/
theorem stop_idempotent_no_error (s : ServerState) :
    stop (stop s).1 = stop s ∧
    (stop s).2 = false ∧
    (stop (stop s).1).2 = false ∧
    (stop s).1.running = false ∧
    ((stop s).1.socketCreated = true → (stop s).1.socketClosed = true) := by
  obtain ⟨r, c, cl⟩ := s
  cases c <;> simp [stop]

/-- Witness for claim C7 at the state of a live server: running, socket
created, not yet closed. -/
theorem stop_idempotent_no_error_witness :
    stop (stop ⟨true, true, false⟩).1 = stop ⟨true, true, false⟩ ∧
    (stop ⟨true, true, false⟩).2 = false ∧
    (stop (stop ⟨true, true, false⟩).1).2 = false ∧
    (stop ⟨true, true, false⟩).1.running = false ∧
    ((stop ⟨true, true, false⟩).1.socketCreated = true →
      (stop ⟨true, true, false⟩).1.socketClosed = true) :=
  stop_idempotent_no_error ⟨true, true, false⟩

/-- Claim C8: when interactive mode is requested and curses is unavailable,
`main` reports the error and exits with status 1 — a non-zero status —
before any `LogReceiver` (and hence any server socket) is created. -/
theorem interactive_without_curses_fails_fast :
    (main_startup true false).exitCode = some 1 ∧
    (1 : Nat) ≠ 0 ∧
    (main_startup true false).errorReported = true ∧
    (main_startup true false).socketCreated = false := by decide

/-- Claim C9: for each of the four toggle keys, pressing it twice restores
the original viewer state, so any fixed entry renders identically before
and after the double toggle; a single toggle never changes the stored logs
accumulator. -/
theorem toggle_twice_restores_rendering (k : Char)
    (hk : k ∈ ['t', 'i', 'p', 'm']) (st : ViewerState) (e : LogEntry) :
    handleKey k (handleKey k st) = st ∧
    (handleKey k st).logs = st.logs ∧
    format_log_entry (handleKey k (handleKey k st)).settings e
      = format_log_entry st.settings e := by
  have hcases : k = 't' ∨ k = 'i' ∨ k = 'p' ∨ k = 'm' := by simpa using hk
  have hdk : handleKey k (handleKey k st) = st := by
    obtain ⟨⟨a, b, c, d⟩, logs, r⟩ := st
    rcases hcases with rfl | rfl | rfl | rfl <;> simp [handleKey]
  have hlogs : (handleKey k st).logs = st.logs := by
    rcases hcases with rfl | rfl | rfl | rfl <;> simp [handleKey]
  exact ⟨hdk, hlogs, by rw [hdk]⟩

/-- Witness for claim C9 at the timestamp toggle key on a concrete viewer
state holding one entry. -/
theorem toggle_twice_restores_rendering_witness :
    handleKey 't' (handleKey 't' sampleViewer) = sampleViewer ∧
    (handleKey 't' sampleViewer).logs = sampleViewer.logs ∧
    format_log_entry
        (handleKey 't' (handleKey 't' sampleViewer)).settings sampleEntry
      = format_log_entry sampleViewer.settings sampleEntry :=
  toggle_twice_restores_rendering 't' (by decide) sampleViewer sampleEntry

/-- Claim C10: under every combination of display settings the interactive
formatter emits the entry message as the final space-joined component, and
with all four toggles off the formatted line is exactly the message. -/
theorem format_message_always_last (cfg : DisplaySettings) (e : LogEntry) :
    (∃ pre, format_log_entry cfg e = pre ++ e.message) ∧
    format_log_entry ⟨false, false, false, false⟩ e = e.message := by
  constructor
  · simp only [format_log_entry]
    exact joinSpace_append_last _ _
  · simp [format_log_entry, joinSpace]

end LogReceiver
